import Mathlib

/-!
Verification development for the `config-service` Service Registry + Health
Monitor subsystem and the feature-flag rollout evaluator.

The Python sources are embedded shallowly:
* dictionaries / JSONB columns become association lists (`List (String × _)`),
* `datetime` timestamps become abstract `Nat` instants passed explicitly,
* fallible redis / cache calls become `Except Unit` with explicit fault
  injection flags, mirroring which call sites swallow exceptions
  (`CacheService` methods) and which re-raise (direct `redis_client` calls).
-/

namespace AI4I

/-- First-match lookup in an association list, the shallow embedding of a
Python `dict` (keys are unique in any reachable state, but no lemma below
assumes it). -/
def alookup {α : Type} (k : String) : List (String × α) → Option α
  | [] => none
  | p :: rest => if p.1 = k then some p.2 else alookup k rest

/-- Replace the value stored at key `k` (mutation of an existing row/entry). -/
def aupdate {α : Type} (k : String) (v : α) : List (String × α) → List (String × α) :=
  List.map (fun p => if p.1 = k then (k, v) else p)

/-- Remove every entry with key `k` (row delete / `DEL key`). -/
def adelete {α : Type} (k : String) (l : List (String × α)) : List (String × α) :=
  l.filter (fun p => decide (p.1 ≠ k))

/-- Insert-or-replace at key `k` (`SETEX` / cache `set`). -/
def aupsert {α : Type} (k : String) (v : α) (l : List (String × α)) : List (String × α) :=
  if (alookup k l).isSome then aupdate k v l else l ++ [(k, v)]

/-- Left-biased choice on `Option`, used to state `dict.update` lookups. -/
def oOr {α : Type} : Option α → Option α → Option α
  | some v, _ => some v
  | none, b => b

/-- Shallow embedding of Python `old.update(new)` on dicts: every key of the
new map is added or overwrites, keys only in the old map keep their value. -/
def dictUpdate {α : Type} (old new : List (String × α)) : List (String × α) :=
  old.map (fun p => (p.1, (alookup p.1 new).getD p.2))
    ++ new.filter (fun p => (alookup p.1 old).isNone)

/-- Boolean prefix test on character lists. -/
def listPre : List Char → List Char → Bool
  | [], _ => true
  | _ :: _, [] => false
  | a :: as, b :: bs => decide (a = b) && listPre as bs

/-- `key` starts with `pre` — the glob `pre*` used by `delete_pattern`. -/
def strStartsWith (key pre : String) : Bool :=
  listPre pre.data key.data

theorem listPre_self : ∀ l : List Char, listPre l l = true := by
  intro l
  induction l with
  | nil => rfl
  | cons a as ih => simp [listPre, ih]

theorem strStartsWith_self (s : String) : strStartsWith s s = true :=
  listPre_self s.data

theorem alookup_append {α : Type} (k : String) (l₁ l₂ : List (String × α)) :
    alookup k (l₁ ++ l₂) = oOr (alookup k l₁) (alookup k l₂) := by
  induction l₁ with
  | nil => simp [alookup, oOr]
  | cons p rest ih =>
    by_cases h : p.1 = k <;> simp [alookup, h, ih, oOr]

theorem alookup_aupdate_of_some {α : Type} {k : String} {v₀ : α} (v : α)
    {l : List (String × α)} (h : alookup k l = some v₀) :
    alookup k (aupdate k v l) = some v := by
  induction l with
  | nil => simp [alookup] at h
  | cons p rest ih =>
    by_cases hk : p.1 = k
    · simp [aupdate, alookup, hk]
    · simp [alookup, hk] at h
      simpa [aupdate, alookup, hk] using ih h

theorem alookup_filter_of_false {α : Type} {k : String}
    (q : String × α → Bool) (hq : ∀ v, q (k, v) = false) (l : List (String × α)) :
    alookup k (l.filter q) = none := by
  induction l with
  | nil => rfl
  | cons p rest ih =>
    by_cases hk : p.1 = k
    · have hp : p = (k, p.2) := by
        cases p; simp_all
      rw [hp]
      by_cases hqp : q (k, p.2) = true
      · rw [hq p.2] at hqp; cases hqp
      · simp only [List.filter, hq p.2]
        exact ih
    · by_cases hqp : q p = true
      · simp only [List.filter, hqp]
        simpa [alookup, hk] using ih
      · simp only [List.filter, Bool.not_eq_true] at hqp
        simp only [List.filter, hqp]
        exact ih

theorem alookup_filter_of_none {α : Type} {k : String}
    (q : String × α → Bool) {l : List (String × α)} (h : alookup k l = none) :
    alookup k (l.filter q) = none := by
  induction l with
  | nil => rfl
  | cons p rest ih =>
    by_cases hk : p.1 = k
    · simp [alookup, hk] at h
    · simp only [alookup, hk, if_false] at h
      by_cases hqp : q p = true
      · simp only [List.filter, hqp]
        simpa [alookup, hk] using ih h
      · simp only [List.filter, Bool.not_eq_true] at hqp
        simp only [List.filter, hqp]
        exact ih h

theorem alookup_adelete {α : Type} (k : String) (l : List (String × α)) :
    alookup k (adelete k l) = none := by
  refine alookup_filter_of_false _ (fun v => ?_) l
  simp

theorem alookup_map_getD {α : Type} (k : String) (old new : List (String × α)) :
    alookup k (old.map (fun p => (p.1, (alookup p.1 new).getD p.2)))
      = (alookup k old).map (fun v => (alookup k new).getD v) := by
  induction old with
  | nil => rfl
  | cons p rest ih =>
    by_cases hk : p.1 = k
    · subst hk
      simp [alookup]
    · simp [alookup, hk, ih]

theorem alookup_filter_isNone {α : Type} {k : String} {old : List (String × α)}
    (h : alookup k old = none) (new : List (String × α)) :
    alookup k (new.filter (fun p => (alookup p.1 old).isNone)) = alookup k new := by
  induction new with
  | nil => rfl
  | cons p rest ih =>
    by_cases hk : p.1 = k
    · have hpred : (alookup p.1 old).isNone = true := by rw [hk, h]; rfl
      simp only [List.filter, hpred]
      simp [alookup, hk]
    · by_cases hqp : (alookup p.1 old).isNone = true
      · simp only [List.filter, hqp]
        simpa [alookup, hk] using ih
      · simp only [List.filter, Bool.not_eq_true] at hqp
        simp only [List.filter, hqp]
        simpa [alookup, hk] using ih

/-- The fundamental `dict.update` law: lookups in the merged map prefer the
new map and fall back to the old one. -/
theorem alookup_dictUpdate {α : Type} (k : String) (old new : List (String × α)) :
    alookup k (dictUpdate old new) = oOr (alookup k new) (alookup k old) := by
  unfold dictUpdate
  rw [alookup_append, alookup_map_getD]
  cases hOld : alookup k old with
  | none =>
    rw [alookup_filter_isNone hOld]
    cases alookup k new <;> simp [oOr]
  | some v =>
    cases hNew : alookup k new <;> simp [oOr, hNew]

/-! ## Health probe classification (`health_monitor_service.check_service_health`) -/

/-- ASCII case folding of one character, the behaviour of Python `str.lower`
on the ASCII payloads this service handles. -/
def pyLowerChar (c : Char) : Char :=
  if 65 ≤ c.toNat ∧ c.toNat ≤ 90 then Char.ofNat (c.toNat + 32) else c

/-- Python `s.lower()` (ASCII fragment). -/
def pyLower (s : String) : String :=
  String.mk (s.data.map pyLowerChar)

/-- Shallow embedding of the JSON values a probe response body can parse to. -/
inductive Json where
  | str (s : String)
  | num (q : ℚ)
  | jbool (b : Bool)
  | null
  | arr (xs : List Json)
  | obj (fields : List (String × Json))

/-- `data.get("status", "").lower()` on a Python dict: absent key yields `""`;
a non-string value makes `.lower()` raise `AttributeError` (modelled as
`none`), which the bare `except:` in the source turns into the HTTP-status
fallback. -/
def statusFrom (fields : List (String × Json)) : Option String :=
  match alookup "status" fields with
  | none => some ""
  | some (Json.str s) => some (pyLower s)
  | some _ => none

/-- `if "detail" in data and isinstance(data["detail"], dict)`: the status is
read from the `detail` wrapper when it is a dict, else from the top level. -/
def statusFields (fields : List (String × Json)) : List (String × Json) :=
  match alookup "detail" fields with
  | some (Json.obj d) => d
  | _ => fields

/-- The verdict computed from an HTTP response: `body = none` means
`response.json()` raised (non-JSON body). Mirrors the `is_healthy`
computation of `check_service_health` lines 73–96. -/
def classifyResponse (body : Option Json) (statusCode : Nat) : Bool :=
  match body with
  | none => statusCode == 200
  | some data =>
    match data with
    | Json.obj fields =>
      match statusFrom (statusFields fields) with
      | none => statusCode == 200
      | some st =>
        if st == "healthy" then true
        else if st == "unhealthy" || st == "error" || st == "down" then false
        else if statusCode == 200 then true
        else false
    | _ => false

/-- Outcome of the `http_client.get` call (post-transport view of one probe). -/
inductive ProbeOutcome where
  | connError
  | timeoutErr
  | otherExn
  | response (statusCode : Nat) (body : Option Json) (elapsedMs : ℚ)

/-- `check_service_health`: returns `(is_healthy, response_time_ms)`;
connection errors, timeouts and any other exception yield `(False, 0.0)`. -/
def check_service_health : ProbeOutcome → Bool × ℚ
  | ProbeOutcome.connError => (false, 0)
  | ProbeOutcome.timeoutErr => (false, 0)
  | ProbeOutcome.otherExn => (false, 0)
  | ProbeOutcome.response code body rt => (classifyResponse body code, rt)

/-! ## Health monitor cycle (`check_all_services`) -/

/-- One registry snapshot entry together with what its probe did this cycle. -/
structure SvcSnap where
  name : String
  status : String
  outcome : ProbeOutcome

/-- The status string written for a verdict. -/
def newStatusOf (s : SvcSnap) : String :=
  if (check_service_health s.outcome).1 then "healthy" else "unhealthy"

/-- First loop of `check_all_services`: collect
`(service_name, current_status, is_healthy, response_time)` per service
(a per-service exception is already folded into `ProbeOutcome.otherExn`). -/
def healthResults (snapshot : List SvcSnap) : List (String × String × Bool × ℚ) :=
  snapshot.map (fun s =>
    (s.name, s.status, (check_service_health s.outcome).1, (check_service_health s.outcome).2))

/-- Second loop of `check_all_services`: emit an `update_health` call exactly
when `current_status != new_status or current_status == "unknown"`. -/
def updateCalls : List (String × String × Bool × ℚ) → List (String × String × ℚ)
  | [] => []
  | (name, current, isHealthy, rt) :: rest =>
    let newStatus := if isHealthy then "healthy" else "unhealthy"
    if current != newStatus || current == "unknown" then
      (name, newStatus, rt) :: updateCalls rest
    else
      updateCalls rest

/-- The sequence of `update_health` calls one monitoring cycle issues for a
given snapshot. -/
def check_all_services (snapshot : List SvcSnap) : List (String × String × ℚ) :=
  updateCalls (healthResults snapshot)

/-! ## Feature flag evaluation (`feature_flag_service.evaluate_feature_flag`) -/

/-- The cached/DB view of a feature flag that evaluation reads
(`FeatureFlagResponse`): `rollout_percentage` is a two-decimal numeric,
`target_users` a nullable array. -/
structure Flag where
  name : String
  is_enabled : Bool
  rollout_percentage : ℚ
  target_users : Option (List String)
deriving DecidableEq

/-- Evaluation outcome reasons (the source emits them as strings;
`rolloutPercentage p` stands for `f"rollout_percentage_{p}"`). -/
inductive EvalReason where
  | flagNotFound
  | globallyDisabled
  | userTargeted
  | rolloutPercentage (p : ℚ)
  | globallyEnabled
deriving DecidableEq

/-- Python truthiness of the optional `user_id` argument. -/
def truthyStr : Option String → Bool
  | none => false
  | some s => !s.isEmpty

/-- Python truthiness of the nullable `target_users` list. -/
def truthyUsers : Option (List String) → Bool
  | none => false
  | some l => !l.isEmpty

/-- `evaluate_feature_flag` lines 120–138, with the md5 bucket abstracted as
`hash (name ++ user_id) % 100` for an arbitrary stable `hash`. `flag?` is
the result of the `get_feature_flag` read. -/
def evaluate_feature_flag (hash : String → Nat) (name : String)
    (flag? : Option Flag) (user? : Option String) : Bool × EvalReason :=
  match flag? with
  | none => (false, EvalReason.flagNotFound)
  | some flag =>
    if !flag.is_enabled && flag.rollout_percentage == 0 then
      (false, EvalReason.globallyDisabled)
    else if truthyUsers flag.target_users && truthyStr user?
        && (flag.target_users.getD []).contains (user?.getD "") then
      (true, EvalReason.userTargeted)
    else if truthyStr user? && flag.rollout_percentage > 0 then
      let bucket : Nat := hash (name ++ user?.getD "") % 100
      if (bucket : ℚ) < flag.rollout_percentage then
        (true, EvalReason.rolloutPercentage flag.rollout_percentage)
      else
        (flag.is_enabled, EvalReason.globallyEnabled)
    else
      (flag.is_enabled, EvalReason.globallyEnabled)

/-- The spec's five ordered rules (§4.3), read literally: "user_id present"
means the optional argument is supplied, with no emptiness caveat. Written
from the spec for the refinement comparison in claim C1. -/
def specEvaluate (hash : String → Nat) (name : String)
    (flag? : Option Flag) (user? : Option String) : Bool × EvalReason :=
  match flag? with
  | none => (false, EvalReason.flagNotFound)
  | some flag =>
    if flag.is_enabled == false && flag.rollout_percentage == 0 then
      (false, EvalReason.globallyDisabled)
    else if user?.any (fun u => (flag.target_users.getD []).contains u) then
      (true, EvalReason.userTargeted)
    else if user?.any (fun u => decide (flag.rollout_percentage > 0)
        && decide (((hash (name ++ u) % 100 : Nat) : ℚ) < flag.rollout_percentage)) then
      (true, EvalReason.rolloutPercentage flag.rollout_percentage)
    else
      (flag.is_enabled, EvalReason.globallyEnabled)

/-- The spec's rules amended only where the code's Python truthiness differs:
the allowlist and rollout steps apply only to a present **non-empty**
`user_id`. -/
def specEvaluateAmended (hash : String → Nat) (name : String)
    (flag? : Option Flag) (user? : Option String) : Bool × EvalReason :=
  match flag? with
  | none => (false, EvalReason.flagNotFound)
  | some flag =>
    if flag.is_enabled == false && flag.rollout_percentage == 0 then
      (false, EvalReason.globallyDisabled)
    else if user?.any (fun u => !u.isEmpty && (flag.target_users.getD []).contains u) then
      (true, EvalReason.userTargeted)
    else if user?.any (fun u => !u.isEmpty && decide (flag.rollout_percentage > 0)
        && decide (((hash (name ++ u) % 100 : Nat) : ℚ) < flag.rollout_percentage)) then
      (true, EvalReason.rolloutPercentage flag.rollout_percentage)
    else
      (flag.is_enabled, EvalReason.globallyEnabled)

/-! ## Durable-store repository (`service_registry_repository.py`) -/

/-- A metadata value (JSONB leaf); enough structure for the claims. -/
inductive MVal where
  | num (q : ℚ)
  | str (s : String)
deriving DecidableEq

/-- The open metadata map (JSONB dict). -/
def Meta : Type := List (String × MVal)

instance : DecidableEq Meta := by
  unfold Meta
  infer_instance

/-- One `service_registry` row (`ServiceRegistryDB`); timestamps are abstract
`Nat` instants. -/
structure Rec where
  id : Nat
  service_name : String
  service_url : String
  health_check_url : Option String
  status : String
  last_health_check : Option Nat
  service_metadata : Option Meta
  registered_at : Nat
  updated_at : Nat
deriving DecidableEq

/-- The durable store: rows keyed by `service_name` plus the autoincrement
counter behind `id`. -/
structure RepoState where
  recs : List (String × Rec)
  nextId : Nat
deriving DecidableEq

/-- `ServiceRegistryRepository.register`: update mutable fields of an
existing row (metadata only when the argument is not `None`), else insert a
fresh row with `status='unknown'`. `now` is `datetime.utcnow()` feeding the
`updated_at` onupdate default. -/
def repoRegister (service_name service_url : String) (health_check_url : Option String)
    (metadata : Option Meta) (now : Nat) (s : RepoState) : Rec × RepoState :=
  match alookup service_name s.recs with
  | some existing =>
    let r : Rec :=
      { existing with
        service_url := service_url
        health_check_url := health_check_url
        service_metadata :=
          match metadata with
          | some m => some m
          | none => existing.service_metadata
        updated_at := now }
    (r, { s with recs := aupdate service_name r s.recs })
  | none =>
    let r : Rec :=
      { id := s.nextId
        service_name := service_name
        service_url := service_url
        health_check_url := health_check_url
        status := "unknown"
        last_health_check := none
        service_metadata := metadata
        registered_at := now
        updated_at := now }
    (r, { recs := s.recs ++ [(service_name, r)], nextId := s.nextId + 1 })

/-- `ServiceRegistryRepository.get_by_name`. -/
def repoGetByName (service_name : String) (s : RepoState) : Option Rec :=
  alookup service_name s.recs

/-- `ServiceRegistryRepository.update_health`: absent row → `None`, no write;
else set status, stamp `last_health_check`, and when a response time is given
store it under `metadata['avg_response_time']` (resetting a missing or
non-dict metadata to `{}` first). -/
def repoUpdateHealth (service_name status : String) (response_time : Option ℚ)
    (now : Nat) (s : RepoState) : Option Rec × RepoState :=
  match alookup service_name s.recs with
  | none => (none, s)
  | some service =>
    let md : Option Meta :=
      match response_time with
      | none => service.service_metadata
      | some t =>
        some (dictUpdate (service.service_metadata.getD []) [("avg_response_time", MVal.num t)])
    let r : Rec :=
      { service with
        status := status
        last_health_check := some now
        service_metadata := md
        updated_at := now }
    (some r, { s with recs := aupdate service_name r s.recs })

/-- `ServiceRegistryRepository.deregister`: returns whether a row existed,
deleting it when it did. -/
def repoDeregister (service_name : String) (s : RepoState) : Bool × RepoState :=
  match alookup service_name s.recs with
  | none => (false, s)
  | some _ => (true, { s with recs := adelete service_name s.recs })

/-- `ServiceRegistryRepository.update_metadata`: merge into an existing
non-empty dict (`dict.update`), else replace wholesale (Python truthiness:
`None` and `{}` both take the replace branch). -/
def repoUpdateMetadata (service_name : String) (metadata : Meta) (now : Nat)
    (s : RepoState) : Option Rec × RepoState :=
  match alookup service_name s.recs with
  | none => (none, s)
  | some service =>
    let md : Meta :=
      match service.service_metadata with
      | some l => if l.isEmpty then metadata else dictUpdate l metadata
      | none => metadata
    let r : Rec := { service with service_metadata := some md, updated_at := now }
    (some r, { s with recs := aupdate service_name r s.recs })

/-! ## Registry service layer (`service_registry_service.py`)

`CacheService` methods swallow every redis exception (returning a miss /
no-op), while `register_service`, `update_health` and `deregister_service`
also call `self.redis_client.setex` / `.delete` directly — an exception
there hits the outer `except ... raise`. The `Faults` record injects a
failure into each kind of call. -/

structure Faults where
  cacheGetFail : Bool
  cacheSetFail : Bool
  cacheDelFail : Bool
  cacheDelPatFail : Bool
  redisSetexFail : Bool
  redisDelFail : Bool
deriving DecidableEq

/-- No injected failures. -/
def noFaults : Faults :=
  { cacheGetFail := false, cacheSetFail := false, cacheDelFail := false
    cacheDelPatFail := false, redisSetexFail := false, redisDelFail := false }

/-- Every `CacheService`-mediated call fails; the direct redis calls do not. -/
def allCacheFaults : Faults :=
  { cacheGetFail := true, cacheSetFail := true, cacheDelFail := true
    cacheDelPatFail := true, redisSetexFail := false, redisDelFail := false }

/-- The cache projection of one service (`service_dict` built inline at every
call site of `service_registry_service.py`). -/
structure SvcView where
  id : Nat
  service_name : String
  service_url : String
  health_check_url : Option String
  status : String
  last_health_check : Option Nat
  metadata : Option Meta
  registered_at : Nat
  updated_at : Nat
deriving DecidableEq

/-- `toView` is the one serialization from row to cache projection. -/
def toView (r : Rec) : SvcView :=
  { id := r.id, service_name := r.service_name, service_url := r.service_url
    health_check_url := r.health_check_url, status := r.status
    last_health_check := r.last_health_check, metadata := r.service_metadata
    registered_at := r.registered_at, updated_at := r.updated_at }

/-- Values held by the `CacheService` keyspace. -/
inductive CVal where
  | info (v : SvcView)
  | healthyList (l : List SvcView)
deriving DecidableEq

/-- The discovery-index `instance_data` JSON written by `redis_client.setex`. -/
structure InstData where
  instance_id : String
  url : String
  health_status : String
  last_check_timestamp : Option Nat
  avg_response_time : MVal
  consecutive_failures : Nat
deriving DecidableEq

/-- Values held by the raw redis keyspace used for the discovery index. -/
inductive RVal where
  | inst (d : InstData)
  | flag (s : String)
deriving DecidableEq

/-- Published `service-registry-update` event: `(action, service_name, status)`. -/
structure Event where
  action : String
  service_name : String
  status : String
deriving DecidableEq

/-- The whole mutable state a registry-service call touches. -/
structure World where
  repo : RepoState
  cache : List (String × CVal)
  redis : List (String × RVal)
  events : List Event
deriving DecidableEq

/-- `CacheService.get`: an injected failure is swallowed and reads as a miss. -/
def cacheGet (f : Faults) (key : String) (w : World) : Option CVal :=
  if f.cacheGetFail then none else alookup key w.cache

/-- `CacheService.set`: an injected failure is swallowed; nothing is written. -/
def cacheSet (f : Faults) (key : String) (v : CVal) (w : World) : World :=
  if f.cacheSetFail then w else { w with cache := aupsert key v w.cache }

/-- `CacheService.delete`: an injected failure is swallowed. -/
def cacheDelete (f : Faults) (key : String) (w : World) : World :=
  if f.cacheDelFail then w else { w with cache := adelete key w.cache }

/-- `CacheService.delete_pattern` for patterns of the form `pfx*` (the only
form the service layer uses); an injected failure is swallowed. -/
def cacheDeletePattern (f : Faults) (pfx : String) (w : World) : World :=
  if f.cacheDelPatFail then w
  else { w with cache := w.cache.filter (fun p => !strStartsWith p.1 pfx) }

/-- Direct `redis_client.setex`: an exception propagates to the caller. -/
def redisSetex (f : Faults) (key : String) (v : RVal) (w : World) : Except Unit World :=
  if f.redisSetexFail then Except.error ()
  else Except.ok { w with redis := aupsert key v w.redis }

/-- Direct `redis_client.delete`: an exception propagates to the caller. -/
def redisDelete (f : Faults) (key : String) (w : World) : Except Unit World :=
  if f.redisDelFail then Except.error ()
  else Except.ok { w with redis := adelete key w.redis }

/-- `NotificationService.publish_service_registry_update`: best-effort,
failures swallowed, so the model always records the event. -/
def publish (action service_name status : String) (w : World) : World :=
  { w with events := w.events ++ [{ action := action, service_name := service_name, status := status }] }

/-- `metadata.get("avg_response_time", 0) if service.service_metadata else 0`. -/
def avgRespOf (md : Option Meta) : MVal :=
  match md with
  | none => MVal.num 0
  | some l => if l.isEmpty then MVal.num 0 else (alookup "avg_response_time" l).getD (MVal.num 0)

/-- `ServiceRegistryService.register_service`: durable upsert, then the two
direct redis `setex` writes, then the swallowed cache `set`, then the event. -/
def register_service (f : Faults) (service_name service_url : String)
    (health_check_url : Option String) (metadata : Option Meta) (now : Nat)
    (w : World) : Except Unit (Rec × World) := do
  let (service, repo) := repoRegister service_name service_url health_check_url metadata now w.repo
  let w := { w with repo := repo }
  let inst : InstData :=
    { instance_id := service_name ++ "-1", url := service_url
      health_status := service.status
      last_check_timestamp := some service.updated_at
      avg_response_time := avgRespOf service.service_metadata
      consecutive_failures := 0 }
  let w ← redisSetex f ("service:" ++ service_name ++ ":instances") (RVal.inst inst) w
  let w ← redisSetex f ("service:" ++ service_name ++ ":active") (RVal.flag "1") w
  let w := cacheSet f ("service_info:" ++ service_name) (CVal.info (toView service)) w
  let w := publish "register" service_name service.status w
  Except.ok (service, w)

/-- `ServiceRegistryService.get_service`: cache-first, repopulate on a miss;
no call in it can raise, so it is total. -/
def get_service (f : Faults) (service_name : String) (w : World) : Option SvcView × World :=
  match cacheGet f ("service_info:" ++ service_name) w with
  | some (CVal.info v) => (some v, w)
  | some (CVal.healthyList _) => (none, w)
  | none =>
    match repoGetByName service_name w.repo with
    | some service =>
      let v := toView service
      (some v, cacheSet f ("service_info:" ++ service_name) (CVal.info v) w)
    | none => (none, w)

/-- `ServiceRegistryService.update_health`: silent `None` on an absent row;
else the two direct redis writes, pattern invalidation of `service_info:`,
deletion of `healthy_services`, and the event. -/
def update_health_service (f : Faults) (service_name status : String)
    (response_time : Option ℚ) (now : Nat) (w : World) :
    Except Unit (Option SvcView × World) := do
  match repoUpdateHealth service_name status response_time now w.repo with
  | (none, repo) => Except.ok (none, { w with repo := repo })
  | (some service, repo) =>
    let w := { w with repo := repo }
    let inst : InstData :=
      { instance_id := service_name ++ "-1", url := service.service_url
        health_status := status
        last_check_timestamp := service.last_health_check
        avg_response_time := MVal.num (response_time.getD 0)
        consecutive_failures := 0 }
    let w ← redisSetex f ("service:" ++ service_name ++ ":instances") (RVal.inst inst) w
    let w ← redisSetex f ("service:" ++ service_name ++ ":active")
      (RVal.flag (if status == "healthy" then "1" else "0")) w
    let w := cacheDeletePattern f ("service_info:" ++ service_name) w
    let w := cacheDelete f "healthy_services" w
    let w := publish "health_update" service_name status w
    Except.ok (some (toView service), w)

/-- `ServiceRegistryService.deregister_service`: durable delete; on success
purge the cache pattern, `healthy_services`, and the two redis keys, then
publish. -/
def deregister_service (f : Faults) (service_name : String) (w : World) :
    Except Unit (Bool × World) := do
  let (success, repo) := repoDeregister service_name w.repo
  let w := { w with repo := repo }
  if success then
    let w := cacheDeletePattern f ("service_info:" ++ service_name) w
    let w := cacheDelete f "healthy_services" w
    let w ← redisDelete f ("service:" ++ service_name ++ ":instances") w
    let w ← redisDelete f ("service:" ++ service_name ++ ":active") w
    let w := publish "deregister" service_name "deregistered" w
    Except.ok (true, w)
  else
    Except.ok (false, w)

/-! ## Registration request validation (`service_registry_models.py`) -/

/-- `validate_service_name`: reject empty or >100 chars, then reject iff
`v.lower() != v.replace(' ', '-')`; the accepted value is `v.lower()`. -/
def validate_service_name (v : String) : Option String :=
  if v.isEmpty || v.length > 100 then none
  else if !(pyLower v == String.mk (v.data.map (fun c => if c = ' ' then '-' else c))) then none
  else some (pyLower v)

/-- The character class the spec (and the validator docstring) promises:
lowercase alphanumeric or hyphen. -/
def specNameChar (c : Char) : Bool :=
  (c.isLower && c.isAlpha) || c.isDigit || c == '-'

/-! ## Claim theorems -/

/-- C9 (code bug): the validator accepts `"my_service"` — a name containing
an underscore — even though its own docstring, error message and the spec
require lowercase alphanumeric plus hyphens only. The broken check
`v.lower() == v.replace(' ', '-')` only rejects uppercase letters and
spaces. -/
theorem c9_validator_accepts_underscore :
    validate_service_name "my_service" = some "my_service"
      ∧ "my_service".data.all specNameChar = false := by
  constructor
  · decide
  · decide

/-- C10: a probe body that parses as JSON but is not a JSON object (array,
string, number, boolean or null) classifies as unhealthy even with HTTP 200,
whereas a body that is not JSON at all classifies as healthy with HTTP 200. -/
theorem c10_non_object_json_unhealthy :
    (∀ (xs : List Json) (code : Nat), classifyResponse (some (Json.arr xs)) code = false)
      ∧ (∀ (s : String) (code : Nat), classifyResponse (some (Json.str s)) code = false)
      ∧ (∀ (q : ℚ) (code : Nat), classifyResponse (some (Json.num q)) code = false)
      ∧ (∀ (b : Bool) (code : Nat), classifyResponse (some (Json.jbool b)) code = false)
      ∧ (∀ (code : Nat), classifyResponse (some Json.null) code = false)
      ∧ classifyResponse none 200 = true := by
  refine ⟨fun xs code => rfl, fun s code => rfl, fun q code => rfl,
    fun b code => rfl, fun code => rfl, rfl⟩

/-- C2: health verdicts are classified as specified — a resolved `status`
field `"healthy"` wins over any HTTP code; a resolved `status` in
`{"unhealthy","error","down"}` is unhealthy regardless of HTTP code; a
non-JSON body is healthy iff HTTP 200; a connection error or timeout is
unhealthy with response time 0. -/
theorem c2_health_verdict_classification :
    (∀ (fields : List (String × Json)) (code : Nat),
        alookup "status" (statusFields fields) = some (Json.str "healthy") →
        classifyResponse (some (Json.obj fields)) code = true)
      ∧ (∀ (fields : List (String × Json)) (code : Nat) (s : String),
          alookup "status" (statusFields fields) = some (Json.str s) →
          s = "unhealthy" ∨ s = "error" ∨ s = "down" →
          classifyResponse (some (Json.obj fields)) code = false)
      ∧ (∀ code : Nat, classifyResponse none code = true ↔ code = 200)
      ∧ check_service_health ProbeOutcome.connError = (false, 0)
      ∧ check_service_health ProbeOutcome.timeoutErr = (false, 0) := by
  refine ⟨?_, ?_, ?_, rfl, rfl⟩
  · intro fields code h
    simp only [classifyResponse, statusFrom, h]
    have hc : (pyLower "healthy" == "healthy") = true := by decide
    rw [hc]
    simp
  · intro fields code s h hs
    simp only [classifyResponse, statusFrom, h]
    rcases hs with rfl | rfl | rfl
    · have h1 : (pyLower "unhealthy" == "healthy") = false := by decide
      have h2 : (pyLower "unhealthy" == "unhealthy" || pyLower "unhealthy" == "error"
          || pyLower "unhealthy" == "down") = true := by decide
      rw [h1, h2]
      simp
    · have h1 : (pyLower "error" == "healthy") = false := by decide
      have h2 : (pyLower "error" == "unhealthy" || pyLower "error" == "error"
          || pyLower "error" == "down") = true := by decide
      rw [h1, h2]
      simp
    · have h1 : (pyLower "down" == "healthy") = false := by decide
      have h2 : (pyLower "down" == "unhealthy" || pyLower "down" == "error"
          || pyLower "down" == "down") = true := by decide
      rw [h1, h2]
      simp
  · intro code
    simp only [classifyResponse, beq_iff_eq]

/-- C2 witness: the spec's concrete scenarios — `{"status":"healthy"}` with
HTTP 503 is healthy; `{"detail":{"status":"unhealthy"}}` with HTTP 200 is
unhealthy; a non-JSON body with HTTP 200 is healthy; a timeout is unhealthy
with response time 0. -/
theorem c2_health_verdict_classification_witness :
    classifyResponse (some (Json.obj [("status", Json.str "healthy")])) 503 = true
      ∧ classifyResponse (some (Json.obj [("detail", Json.obj [("status", Json.str "unhealthy")])])) 200 = false
      ∧ classifyResponse none 200 = true
      ∧ check_service_health ProbeOutcome.timeoutErr = (false, 0) :=
  ⟨c2_health_verdict_classification.1 [("status", Json.str "healthy")] 503 rfl,
   c2_health_verdict_classification.2.1 [("detail", Json.obj [("status", Json.str "unhealthy")])] 200
     "unhealthy" rfl (Or.inl rfl),
   (c2_health_verdict_classification.2.2.1 200).2 rfl,
   c2_health_verdict_classification.2.2.2.2⟩

theorem monitorCondBridge (a b : String) :
    (a != b || a == "unknown") = decide (b ≠ a ∨ a = "unknown") := by
  rw [Bool.eq_iff_iff]
  simp [bne_iff_ne, ne_comm]

/-- C8: in a monitoring cycle, `update_health` is issued for a snapshot entry
iff the computed status differs from the last-known status or the last-known
status was `"unknown"` — the cycle's call list is exactly the filtered,
mapped snapshot. -/
theorem c8_update_health_iff_changed (snapshot : List SvcSnap) :
    check_all_services snapshot
      = (snapshot.filter
          (fun s => decide (newStatusOf s ≠ s.status ∨ s.status = "unknown"))).map
          (fun s => (s.name, newStatusOf s, (check_service_health s.outcome).2)) := by
  induction snapshot with
  | nil => rfl
  | cons s rest ih =>
    unfold check_all_services healthResults at ih ⊢
    simp only [List.map_cons, updateCalls]
    rw [List.filter_cons]
    by_cases h : (newStatusOf s ≠ s.status ∨ s.status = "unknown")
    · have hb : (s.status != (if (check_service_health s.outcome).1 then "healthy" else "unhealthy")
          || s.status == "unknown") = true := by
        rw [show (if (check_service_health s.outcome).1 then "healthy" else "unhealthy")
            = newStatusOf s from rfl]
        rw [monitorCondBridge]
        exact decide_eq_true h
      simp [hb, decide_eq_true h, ih]
      rfl
    · have hb : (s.status != (if (check_service_health s.outcome).1 then "healthy" else "unhealthy")
          || s.status == "unknown") = false := by
        rw [show (if (check_service_health s.outcome).1 then "healthy" else "unhealthy")
            = newStatusOf s from rfl]
        rw [monitorCondBridge]
        exact decide_eq_false h
      simp [hb, decide_eq_false h, ih]

/-- The flag of the spec's concrete scenario. -/
def betaFlag : Flag :=
  { name := "beta", is_enabled := true, rollout_percentage := 0, target_users := some ["u1"] }

theorem if_nest_and {α : Type} (c : Bool) (P : Prop) [Decidable P] (A D : α) :
    (if c then (if P then A else D) else D) = if (c && decide P) then A else D := by
  by_cases h : P <;> cases c <;> simp [h]

theorem targetCondBridge (tu : Option (List String)) (user? : Option String) :
    (truthyUsers tu && truthyStr user? && (tu.getD []).contains (user?.getD ""))
      = user?.any (fun u => !u.isEmpty && (tu.getD []).contains u) := by
  cases user? with
  | none => simp [truthyStr, Option.any]
  | some u =>
    cases tu with
    | none => simp [truthyUsers, truthyStr, Option.any]
    | some l =>
      cases l with
      | nil => simp [truthyUsers, truthyStr, Option.any]
      | cons a as => simp [truthyUsers, truthyStr, Option.any, Bool.and_assoc]

/-- C1 counterexample: for the flag
`{is_enabled: true, rollout_percentage: 0, target_users: [""]}` evaluated
with the present user id `""`, the code returns `(true, globally_enabled)`
although the claim's rule 3 (user in `target_users`) requires
`(true, user_targeted)` — Python truthiness skips targeting for an empty
`user_id`. -/
theorem c1_counterexample :
    evaluate_feature_flag (fun _ => 0) "beta"
        (some { name := "beta", is_enabled := true, rollout_percentage := 0,
                target_users := some [""] }) (some "")
      = (true, EvalReason.globallyEnabled)
      ∧ specEvaluate (fun _ => 0) "beta"
          (some { name := "beta", is_enabled := true, rollout_percentage := 0,
                  target_users := some [""] }) (some "")
        = (true, EvalReason.userTargeted) := by
  constructor
  · rfl
  · rfl

/-- C1 (amended): evaluation follows the specified first-match-wins order
with the user-targeting and rollout steps applying only to a present
**non-empty** `user_id`; in particular the spec's concrete `beta` scenario
evaluates as claimed. -/
theorem c1_evaluation_order :
    (∀ (hash : String → Nat) (name : String) (flag? : Option Flag) (user? : Option String),
        evaluate_feature_flag hash name flag? user?
          = specEvaluateAmended hash name flag? user?)
      ∧ (∀ hash : String → Nat,
          evaluate_feature_flag hash "beta" (some betaFlag) (some "u1")
            = (true, EvalReason.userTargeted))
      ∧ (∀ hash : String → Nat,
          evaluate_feature_flag hash "beta" (some betaFlag) (some "u2")
            = (true, EvalReason.globallyEnabled))
      ∧ (∀ hash : String → Nat,
          evaluate_feature_flag hash "beta" (some betaFlag) none
            = (true, EvalReason.globallyEnabled)) := by
  refine ⟨?_, fun hash => rfl, fun hash => rfl, fun hash => rfl⟩
  intro hash name flag? user?
  cases flag? with
  | none => rfl
  | some flag =>
    obtain ⟨nm, en, rp, tu⟩ := flag
    simp only [evaluate_feature_flag, specEvaluateAmended]
    rw [targetCondBridge]
    cases en with
    | false =>
      simp only [Bool.not_false, Bool.true_and, beq_self_eq_true, Bool.true_and]
      by_cases hrp : rp == 0
      · rw [hrp]
        simp
      · simp only [Bool.not_eq_true] at hrp
        rw [hrp]
        simp only [Bool.false_eq_true, if_false, Bool.false_and]
        cases user? with
        | none => rfl
        | some u =>
          simp only [Option.any_some, truthyStr, Option.getD_some]
          rw [if_nest_and]
    | true =>
      simp only [Bool.not_true, Bool.false_and, if_false]
      have : ((true == false) && (rp == 0)) = false := rfl
      rw [this]
      simp only [Bool.false_eq_true, if_false]
      cases user? with
      | none => rfl
      | some u =>
        simp only [Option.any_some, truthyStr, Option.getD_some]
        rw [if_nest_and]

theorem oOr_none {α : Type} (x : Option α) : oOr x none = x := by
  cases x <;> rfl

/-- C3: registering an already-existing `service_name` updates `service_url`,
`health_check_url` and (when a map is supplied) `metadata`, while `status`,
`registered_at` and `last_health_check` are untouched; registering a new
name inserts a row with `status = "unknown"`. -/
theorem c3_register_upsert :
    (∀ (name url : String) (hcu : Option String) (md : Option Meta) (now : Nat)
        (s : RepoState) (r : Rec), alookup name s.recs = some r →
        (repoRegister name url hcu md now s).1.service_url = url
          ∧ (repoRegister name url hcu md now s).1.health_check_url = hcu
          ∧ (repoRegister name url hcu md now s).1.service_metadata
              = (match md with | some m => some m | none => r.service_metadata)
          ∧ (repoRegister name url hcu md now s).1.status = r.status
          ∧ (repoRegister name url hcu md now s).1.registered_at = r.registered_at
          ∧ (repoRegister name url hcu md now s).1.last_health_check = r.last_health_check
          ∧ alookup name (repoRegister name url hcu md now s).2.recs
              = some (repoRegister name url hcu md now s).1)
      ∧ (∀ (name url : String) (hcu : Option String) (md : Option Meta) (now : Nat)
          (s : RepoState), alookup name s.recs = none →
          (repoRegister name url hcu md now s).1.status = "unknown"
            ∧ alookup name (repoRegister name url hcu md now s).2.recs
                = some (repoRegister name url hcu md now s).1) := by
  constructor
  · intro name url hcu md now s r h
    refine ⟨?_, ?_, ?_, ?_, ?_, ?_, ?_⟩ <;> simp only [repoRegister, h]
    exact alookup_aupdate_of_some _ h
  · intro name url hcu md now s h
    constructor
    · simp [repoRegister, h]
    · simp only [repoRegister, h]
      rw [alookup_append, h]
      simp [alookup, oOr]

/-- Fixture row and store for the upsert/metadata witnesses. -/
def recA : Rec :=
  { id := 1, service_name := "a", service_url := "http://old"
    health_check_url := none, status := "healthy", last_health_check := some 3
    service_metadata := some [("a", MVal.num 1)], registered_at := 1, updated_at := 2 }

def s1 : RepoState := { recs := [("a", recA)], nextId := 2 }

/-- C3 witness: on the fixture store, re-registering `"a"` keeps its
`"healthy"` status and `registered_at`, registering fresh `"b"` starts
`"unknown"`. -/
theorem c3_register_upsert_witness :
    (repoRegister "a" "http://new" (some "http://new/h") (some [("k", MVal.str "v")]) 9 s1).1.status
        = "healthy"
      ∧ (repoRegister "a" "http://new" (some "http://new/h") (some [("k", MVal.str "v")]) 9 s1).1.registered_at
          = 1
      ∧ (repoRegister "b" "http://b" none none 9 s1).1.status = "unknown" := by
  have h1 := c3_register_upsert.1 "a" "http://new" (some "http://new/h")
    (some [("k", MVal.str "v")]) 9 s1 recA rfl
  have h2 := c3_register_upsert.2 "b" "http://b" none none 9 s1 rfl
  refine ⟨?_, ?_, h2.1⟩
  · rw [h1.2.2.2.1]
    rfl
  · rw [h1.2.2.2.2.1]
    rfl

/-- C4 counterexample: the fixture row stores metadata `{"a": 1}`;
re-registering it with the map `{"b": 2}` leaves stored metadata `{"b": 2}`
— the key `"a"`, absent from the new map, has been deleted, so
re-registration does not merge. -/
theorem c4_counterexample :
    alookup "a" (recA.service_metadata.getD []) = some (MVal.num 1)
      ∧ (repoRegister "a" "http://new" none (some [("b", MVal.num 2)]) 7 s1).1.service_metadata
          = some [("b", MVal.num 2)]
      ∧ alookup "a"
          ((repoRegister "a" "http://new" none (some [("b", MVal.num 2)]) 7 s1).1.service_metadata.getD [])
        = none := ⟨rfl, rfl, rfl⟩

/-- C4 (amended): `update_metadata` has merge-on-update semantics — lookups
in the stored metadata prefer the new map and fall back to the previous
one, so keys absent from the new map survive; but re-registration with a
metadata map replaces the stored metadata wholesale. -/
theorem c4_metadata_merge :
    (∀ (name : String) (m : Meta) (now : Nat) (s : RepoState) (r : Rec) (k : String),
        alookup name s.recs = some r →
        ((repoUpdateMetadata name m now s).1.map
            (fun r2 => alookup k (r2.service_metadata.getD [])))
          = some (oOr (alookup k m) (alookup k (r.service_metadata.getD []))))
      ∧ (∀ (name url : String) (hcu : Option String) (m : Meta) (now : Nat)
          (s : RepoState) (r : Rec), alookup name s.recs = some r →
          (repoRegister name url hcu (some m) now s).1.service_metadata = some m) := by
  constructor
  · intro name m now s r k h
    simp only [repoUpdateMetadata, h]
    cases hmd : r.service_metadata with
    | none =>
      simp [hmd, oOr_none, alookup]
    | some l =>
      cases l with
      | nil =>
        simp [hmd, oOr_none, alookup]
      | cons p ps =>
        simp only [hmd, List.isEmpty, Bool.false_eq_true, if_false, Option.map_some',
          Option.getD_some]
        rw [alookup_dictUpdate]
  · intro name url hcu m now s r h
    simp only [repoRegister, h]

/-- C4 witness: merging `{"b": 2}` into the fixture's stored `{"a": 1}` via
`update_metadata` keeps key `"a"` and adds key `"b"`. -/
theorem c4_metadata_merge_witness :
    ((repoUpdateMetadata "a" [("b", MVal.num 2)] 9 s1).1.map
        (fun r2 => alookup "a" (r2.service_metadata.getD [])))
      = some (some (MVal.num 1))
      ∧ ((repoUpdateMetadata "a" [("b", MVal.num 2)] 9 s1).1.map
          (fun r2 => alookup "b" (r2.service_metadata.getD [])))
        = some (some (MVal.num 2))
      ∧ (repoRegister "a" "http://new" none (some [("b", MVal.num 2)]) 7 s1).1.service_metadata
          = some [("b", MVal.num 2)] := by
  have ha := c4_metadata_merge.1 "a" [("b", MVal.num 2)] 9 s1 recA "a" rfl
  have hb := c4_metadata_merge.1 "a" [("b", MVal.num 2)] 9 s1 recA "b" rfl
  have hr := c4_metadata_merge.2 "a" "http://new" none [("b", MVal.num 2)] 7 s1 recA rfl
  refine ⟨?_, ?_, ?_⟩
  · rw [ha]; rfl
  · rw [hb]; rfl
  · rw [hr]

/-- Empty world fixture. -/
def w0 : World := { repo := { recs := [], nextId := 1 }, cache := [], redis := [], events := [] }

theorem cacheSet_repo (f : Faults) (key : String) (v : CVal) (w : World) :
    (cacheSet f key v w).repo = w.repo := by
  unfold cacheSet
  by_cases hc : f.cacheSetFail <;> simp [hc]

theorem cacheDelete_repo (f : Faults) (key : String) (w : World) :
    (cacheDelete f key w).repo = w.repo := by
  unfold cacheDelete
  by_cases hc : f.cacheDelFail <;> simp [hc]

theorem cacheDeletePattern_repo (f : Faults) (pfx : String) (w : World) :
    (cacheDeletePattern f pfx w).repo = w.repo := by
  unfold cacheDeletePattern
  by_cases hc : f.cacheDelPatFail <;> simp [hc]

theorem publish_repo (a n st : String) (w : World) : (publish a n st w).repo = w.repo := rfl

/-- C6: `update_health` on an unregistered name returns `None` and leaves
the entire world — durable store, cache, discovery index and events —
untouched, under any cache/redis fault pattern. -/
theorem c6_update_health_not_found (f : Faults) (name st : String) (rt : Option ℚ)
    (now : Nat) (w : World) (h : alookup name w.repo.recs = none) :
    update_health_service f name st rt now w = Except.ok (none, w) := by
  simp only [update_health_service, repoUpdateHealth, h]

/-- C6 witness: on the empty world, updating health of `"ghost"` returns
`None` and changes nothing. -/
theorem c6_update_health_not_found_witness :
    update_health_service noFaults "ghost" "healthy" (some 5) 99 w0 = Except.ok (none, w0) :=
  c6_update_health_not_found noFaults "ghost" "healthy" (some 5) 99 w0 rfl

/-- C7: `deregister_service` returns `True` iff a record existed, and when it
did, the store row, the `service_info:<name>` cache entry, the
`healthy_services` cache entry, and both `service:<name>:instances` /
`service:<name>:active` discovery-index keys are all gone, so an immediate
`get_service` returns absent from both cache and store. -/
theorem c7_deregister_purges (name : String) (w : World) :
    ((deregister_service noFaults name w).toOption.map Prod.fst
        = some (alookup name w.repo.recs).isSome)
      ∧ (∀ r : Rec, alookup name w.repo.recs = some r →
          ∃ w2 : World, deregister_service noFaults name w = Except.ok (true, w2)
            ∧ alookup ("service_info:" ++ name) w2.cache = none
            ∧ alookup "healthy_services" w2.cache = none
            ∧ alookup ("service:" ++ name ++ ":instances") w2.redis = none
            ∧ alookup ("service:" ++ name ++ ":active") w2.redis = none
            ∧ alookup name w2.repo.recs = none
            ∧ (get_service noFaults name w2).1 = none) := by
  constructor
  · cases hx : alookup name w.repo.recs with
    | none =>
      simp [deregister_service, repoDeregister, hx, noFaults, redisDelete,
        cacheDeletePattern, cacheDelete, publish, bind, Except.bind, Except.toOption]
    | some r =>
      simp [deregister_service, repoDeregister, hx, noFaults, redisDelete,
        cacheDeletePattern, cacheDelete, publish, bind, Except.bind, Except.toOption]
  · intro r h
    have hd : deregister_service noFaults name w = Except.ok (true,
        { repo := { recs := adelete name w.repo.recs, nextId := w.repo.nextId },
          cache := adelete "healthy_services"
            (w.cache.filter (fun p => !strStartsWith p.1 ("service_info:" ++ name))),
          redis := adelete ("service:" ++ name ++ ":active")
            (adelete ("service:" ++ name ++ ":instances") w.redis),
          events := w.events ++ [Event.mk "deregister" name "deregistered"] }) := by
      simp [deregister_service, repoDeregister, h, noFaults, redisDelete,
        cacheDeletePattern, cacheDelete, bind, Except.bind, publish, adelete]
    have hinfo : alookup ("service_info:" ++ name)
        (adelete "healthy_services"
          (w.cache.filter (fun p => !strStartsWith p.1 ("service_info:" ++ name)))) = none := by
      unfold adelete
      apply alookup_filter_of_none
      apply alookup_filter_of_false
      intro v
      simp [strStartsWith_self]
    have hrepo : alookup name (adelete name w.repo.recs) = none := alookup_adelete name _
    have hinst : alookup ("service:" ++ name ++ ":instances")
        (adelete ("service:" ++ name ++ ":active")
          (adelete ("service:" ++ name ++ ":instances") w.redis)) = none := by
      unfold adelete
      apply alookup_filter_of_none
      exact alookup_adelete _ _
    refine ⟨_, hd, hinfo, alookup_adelete _ _, hinst, alookup_adelete _ _, hrepo, ?_⟩
    simp [get_service, cacheGet, noFaults, repoGetByName, hinfo, hrepo]

/-- C7 witness: a world holding record `"a"` is fully purged by
`deregister_service "a"`; deregistering the absent `"b"` reports `False`. -/
theorem c7_deregister_purges_witness :
    (∃ w2 : World,
        deregister_service noFaults "a"
          { repo := s1, cache := [("service_info:a", CVal.info (toView recA))],
            redis := [("service:a:active", RVal.flag "1")], events := [] }
        = Except.ok (true, w2)
          ∧ alookup "a" w2.repo.recs = none
          ∧ (get_service noFaults "a" w2).1 = none)
      ∧ ((deregister_service noFaults "b" w0).toOption.map Prod.fst = some false) := by
  constructor
  · obtain ⟨w2, h1, _, _, _, _, h6, h7⟩ :=
      (c7_deregister_purges "a"
        { repo := s1, cache := [("service_info:a", CVal.info (toView recA))],
          redis := [("service:a:active", RVal.flag "1")], events := [] }).2 recA rfl
    exact ⟨w2, h1, h6, h7⟩
  · exact (c7_deregister_purges "b" w0).1

/-- C5 counterexample: a failing discovery-index TTL write
(`redis_client.setex`, which `register_service` calls directly, outside
`CacheService`) aborts the whole `register_service` call — the error is
re-raised to the caller, not treated as a cache miss. -/
theorem c5_counterexample :
    register_service { noFaults with redisSetexFail := true } "svc" "http://u" none none 0 w0
      = Except.error () := rfl

/-- C5 (amended): failures of `CacheService`-mediated operations (cache get,
set, delete, delete-pattern) are never surfaced — every Registry Service
operation still completes and leaves the durable store exactly as the
fault-free repository operation would, and a failed cache read makes `get`
proceed against the durable store; but this protection does not extend to
the direct `redis_client` discovery-index writes. -/
theorem c5_cache_failures_degrade (f : Faults)
    (h1 : f.redisSetexFail = false) (h2 : f.redisDelFail = false) :
    (∀ (name url : String) (hcu : Option String) (md : Option Meta) (now : Nat) (w : World),
        ∃ (r : Rec) (w2 : World),
          register_service f name url hcu md now w = Except.ok (r, w2)
            ∧ r = (repoRegister name url hcu md now w.repo).1
            ∧ w2.repo = (repoRegister name url hcu md now w.repo).2)
      ∧ (∀ (name : String) (w : World), f.cacheGetFail = true →
          (get_service f name w).1 = (repoGetByName name w.repo).map toView)
      ∧ (∀ (name st : String) (rt : Option ℚ) (now : Nat) (w : World),
          ∃ (res : Option SvcView) (w2 : World),
            update_health_service f name st rt now w = Except.ok (res, w2)
              ∧ w2.repo = (repoUpdateHealth name st rt now w.repo).2)
      ∧ (∀ (name : String) (w : World),
          ∃ (b : Bool) (w2 : World),
            deregister_service f name w = Except.ok (b, w2)
              ∧ b = (repoDeregister name w.repo).1
              ∧ w2.repo = (repoDeregister name w.repo).2) := by
  refine ⟨?_, ?_, ?_, ?_⟩
  · intro name url hcu md now w
    rcases hp : repoRegister name url hcu md now w.repo with ⟨r0, s0⟩
    simp only [register_service, hp, redisSetex, h1, Bool.false_eq_true, if_false,
      bind, Except.bind, Except.ok.injEq, Prod.mk.injEq]
    exact ⟨r0, _, ⟨rfl, rfl⟩, rfl, by simp [cacheSet_repo, publish_repo]⟩
  · intro name w hG
    simp only [get_service, cacheGet, hG, if_true]
    cases hr : repoGetByName name w.repo with
    | none => simp [hr]
    | some service => simp [hr]
  · intro name st rt now w
    rcases hp : repoUpdateHealth name st rt now w.repo with ⟨res0, s0⟩
    cases res0 with
    | none =>
      simp only [update_health_service, hp, Except.ok.injEq, Prod.mk.injEq]
      exact ⟨none, _, ⟨rfl, rfl⟩, rfl⟩
    | some service =>
      simp only [update_health_service, hp, redisSetex, h1, Bool.false_eq_true, if_false,
        bind, Except.bind, Except.ok.injEq, Prod.mk.injEq]
      exact ⟨some (toView service), _, ⟨rfl, rfl⟩,
        by simp [cacheDeletePattern_repo, cacheDelete_repo, publish_repo]⟩
  · intro name w
    rcases hp : repoDeregister name w.repo with ⟨b0, s0⟩
    cases b0 with
    | false =>
      simp [deregister_service, hp]
    | true =>
      simp [deregister_service, hp, redisDelete, h2, bind, Except.bind,
        cacheDeletePattern_repo, cacheDelete_repo, publish_repo]

/-- C5 witness: with every `CacheService` operation failing (and the direct
redis writes healthy), registration still succeeds and a cache-failing read
still answers from the durable store. -/
theorem c5_cache_failures_degrade_witness :
    (∃ (r : Rec) (w2 : World),
        register_service allCacheFaults "svc" "http://u" none none 3 w0 = Except.ok (r, w2))
      ∧ (get_service allCacheFaults "svc" w0).1 = none := by
  have h := c5_cache_failures_degrade allCacheFaults rfl rfl
  constructor
  · obtain ⟨r, w2, hh, _, _⟩ := h.1 "svc" "http://u" none none 3 w0
    exact ⟨r, w2, hh⟩
  · have hg := h.2.1 "svc" w0 rfl
    rw [hg]
    rfl

end AI4I
